import Mathlib

/-!
# Verification of `joblib/logger.py`

A shallow embedding of the logging helper module (`src/joblib/logger.py`)
together with proofs of its specified properties.

Modelling conventions:
* Python floats (wall-clock durations, in seconds) are modelled as exact
  fractions `Q` (an integer numerator over a natural denominator, kept
  unreduced so that every operation is plain integer arithmetic that the
  kernel can evaluate).  `Q.toRat` interprets such a fraction in `ℚ`, and
  bridge lemmas below show each `Q` operation agrees with the rational one
  whenever denominators are non-zero, which holds for every value a float
  can take.
* The C-style `"%.1f"` / `"%.2f"` conversions are modelled by rounding the
  scaled fraction to the nearest integer, rounding half up; no property
  below evaluates a formatter at a tie, so the tie-breaking convention is
  irrelevant to every statement proved here.
* The file system is a finite map from path strings to file contents plus a
  set of directories, both as association lists.
* `sys.platform.startswith('win')` is a boolean parameter `win`.
* Exceptions raised by OS calls are injected through an explicit `Faults`
  record; a `try: ... except: pass` block in the source becomes a test of
  the corresponding fault flag.
-/

namespace JoblibLogger

/-! ## Exact fractions standing in for Python floats -/

/-- An exact fraction `num / den`, not necessarily reduced.  Stands in for a
Python float; every float is such a fraction with positive denominator. -/
structure Q where
  num : Int
  den : Nat
deriving DecidableEq, Repr

namespace Q

/-- Interpret the fraction as a rational number. -/
def toRat (q : Q) : ℚ := (q.num : ℚ) / (q.den : ℚ)

instance : OfNat Q n := ⟨⟨n, 1⟩⟩

/-- Fraction addition (no reduction). -/
def add (a b : Q) : Q := ⟨a.num * b.den + b.num * a.den, a.den * b.den⟩

instance : Add Q := ⟨add⟩

/-- Fraction subtraction (no reduction). -/
def sub (a b : Q) : Q := ⟨a.num * b.den - b.num * a.den, a.den * b.den⟩

instance : Sub Q := ⟨sub⟩

/-- Fraction multiplication (no reduction). -/
def mul (a b : Q) : Q := ⟨a.num * b.num, a.den * b.den⟩

instance : Mul Q := ⟨mul⟩

/-- Division by a positive integer constant (the source only ever divides a
duration by the literal `60.`). -/
def divN (a : Q) (n : Nat) : Q := ⟨a.num, a.den * n⟩

/-- Strict-order test by cross multiplication; agrees with the order on `ℚ`
whenever both denominators are positive. -/
def blt (a b : Q) : Bool := decide (a.num * (b.den : Int) < b.num * (a.den : Int))

/-- Floor of the fraction (Euclidean division floors when the divisor is
positive, and every denominator in sight is). -/
def fl (q : Q) : Int := q.num / (q.den : Int)

theorem toRat_add (a b : Q) (ha : a.den ≠ 0) (hb : b.den ≠ 0) :
    (a + b).toRat = a.toRat + b.toRat := by
  show (add a b).toRat = _
  unfold toRat add
  have ha' : ((a.den : ℚ)) ≠ 0 := Nat.cast_ne_zero.mpr ha
  have hb' : ((b.den : ℚ)) ≠ 0 := Nat.cast_ne_zero.mpr hb
  push_cast
  field_simp

theorem toRat_sub (a b : Q) (ha : a.den ≠ 0) (hb : b.den ≠ 0) :
    (a - b).toRat = a.toRat - b.toRat := by
  show (sub a b).toRat = _
  unfold toRat sub
  have ha' : ((a.den : ℚ)) ≠ 0 := Nat.cast_ne_zero.mpr ha
  have hb' : ((b.den : ℚ)) ≠ 0 := Nat.cast_ne_zero.mpr hb
  push_cast
  field_simp
  ring

theorem toRat_mul (a b : Q) (ha : a.den ≠ 0) (hb : b.den ≠ 0) :
    (a * b).toRat = a.toRat * b.toRat := by
  show (mul a b).toRat = _
  unfold toRat mul
  have ha' : ((a.den : ℚ)) ≠ 0 := Nat.cast_ne_zero.mpr ha
  have hb' : ((b.den : ℚ)) ≠ 0 := Nat.cast_ne_zero.mpr hb
  push_cast
  field_simp

theorem toRat_divN (a : Q) (n : Nat) (ha : a.den ≠ 0) (hn : n ≠ 0) :
    (a.divN n).toRat = a.toRat / (n : ℚ) := by
  unfold toRat divN
  have ha' : ((a.den : ℚ)) ≠ 0 := Nat.cast_ne_zero.mpr ha
  have hn' : ((n : ℚ)) ≠ 0 := Nat.cast_ne_zero.mpr hn
  push_cast
  field_simp

theorem blt_iff (a b : Q) (ha : a.den ≠ 0) (hb : b.den ≠ 0) :
    blt a b = true ↔ a.toRat < b.toRat := by
  have ha' : (0 : ℚ) < (a.den : ℚ) := by exact_mod_cast Nat.pos_of_ne_zero ha
  have hb' : (0 : ℚ) < (b.den : ℚ) := by exact_mod_cast Nat.pos_of_ne_zero hb
  unfold blt toRat
  rw [decide_eq_true_eq, div_lt_div_iff₀ ha' hb']
  constructor
  · intro h; exact_mod_cast h
  · intro h; exact_mod_cast h

theorem fl_eq_floor (q : Q) : q.fl = ⌊q.toRat⌋ := by
  unfold fl toRat
  exact (Rat.floor_intCast_div_natCast q.num q.den).symm

end Q

/-! ## Log-level constants (`logger.py` lines 22-28)

The module remaps the stdlib levels so that a higher integer means more
verbose output.  `SILENT = 0` is not a named module constant; it is the
level `0 : No output - complete quiet` documented in the verbosity table of
the `set_log_options` docstring (lines 62-70). -/

def DEBUG : Nat := 50    -- logging.CRITICAL
def INFO : Nat := 40     -- logging.ERROR
def WARNING : Nat := 30  -- logging.WARNING
def ERROR : Nat := 20    -- logging.INFO
def CRITICAL : Nat := 10 -- logging.DEBUG
def PROGRESS : Nat := 45
def SILENT : Nat := 0

/-- The closed set of verbosity names of the level map. -/
inductive Level where
  | silent | critical | error | warning | info | progress | debug
deriving DecidableEq, Fintype

/-- The integer assigned to each verbosity name by the module. -/
def levelValue : Level → Nat
  | .silent => SILENT
  | .critical => CRITICAL
  | .error => ERROR
  | .warning => WARNING
  | .info => INFO
  | .progress => PROGRESS
  | .debug => DEBUG

/-- Intended verbosity order of the names: `silent` shows least detail,
`debug` shows most. -/
def verbosityRank : Level → Nat
  | .silent => 0
  | .critical => 1
  | .error => 2
  | .warning => 3
  | .info => 4
  | .progress => 5
  | .debug => 6

/-! ## Numeric formatting helpers -/

/-- C-style `"%.1f"`: one digit after the decimal point, rounding to the
nearest tenth. -/
def fmtF1 (q : Q) : String :=
  let n : Int := (q * 10 + ⟨1, 2⟩).fl
  let a := n.natAbs
  (if n < 0 then "-" else "") ++ toString (a / 10) ++ "." ++ toString (a % 10)

/-- C-style `"%.2f"`: two digits after the decimal point, rounding to the
nearest hundredth. -/
def fmtF2 (q : Q) : String :=
  let n : Int := (q * 100 + ⟨1, 2⟩).fl
  let a := n.natAbs
  (if n < 0 then "-" else "") ++ toString (a / 100) ++ "." ++
    (if a % 100 < 10 then "0" else "") ++ toString (a % 100)

/-- Left-pad a string with spaces to the given width, as the width field of
a C format conversion does. -/
def padLeft (s : String) (w : Nat) : String :=
  if w ≤ s.length then s else String.mk (List.replicate (w - s.length) ' ') ++ s

/-! ## Time formatting (`logger.py` lines 165-186) -/

/-- Source `_squeeze_time(t)` (lines 165-173): under Windows subtract the 0.1s
file-stat overhead via `max(0, t - .1)`; elsewhere return `t` unchanged.
Python's `max` returns its first argument on ties, hence the strict
comparison. -/
def squeeze_time (win : Bool) (t : Q) : Q :=
  if win then (if Q.blt 0 (t - ⟨1, 10⟩) then t - ⟨1, 10⟩ else 0) else t

/-- Source `format_time(t)` (lines 176-178): `"%.1fs, %.1fmin" % (t, t / 60.)`
after `_squeeze_time`. -/
def format_time (win : Bool) (t : Q) : String :=
  let t := squeeze_time win t
  fmtF1 t ++ "s, " ++ fmtF1 (t.divN 60) ++ "min"

/-- Source `short_format_time(t)` (lines 181-186): `"%4.1fmin" % (t / 60.)` when
`t > 60`, else `" %5.1fs" % t`, after `_squeeze_time`. -/
def short_format_time (win : Bool) (t : Q) : String :=
  let t := squeeze_time win t
  if Q.blt 60 t then padLeft (fmtF1 (t.divN 60)) 4 ++ "min"
  else " " ++ padLeft (fmtF1 t) 5 ++ "s"

/-! ## File-system model

Only the operations the module performs are modelled: existence test,
recursive directory creation, rename (`shutil.move`), copy (`shutil.copy`),
truncating write (`file(p, 'w')` plus `write`) and append
(`file(p, 'a')` as the target of `print >>`). -/

structure FS where
  files : List (String × String)
  dirs : List String
deriving DecidableEq, Repr

namespace FS

/-- Contents of the file at `p`, if one exists. -/
def lookup (fs : FS) (p : String) : Option String :=
  (fs.files.find? (fun kv => kv.1 == p)).map (fun kv => kv.2)

/-- Python `os.path.exists(p)`: true for files and directories; always false for
the empty path. -/
def pathExists (fs : FS) (p : String) : Bool :=
  p != "" && ((fs.lookup p).isSome || fs.dirs.contains p)

/-- Delete the file at `p` if present. -/
def remove (fs : FS) (p : String) : FS :=
  { fs with files := fs.files.filter (fun kv => kv.1 != p) }

/-- Create or overwrite the file at `p` with contents `c`. -/
def write (fs : FS) (p c : String) : FS :=
  { fs with files := (p, c) :: (fs.remove p).files }

/-- Python `shutil.move(src, dst)`: `dst` receives the contents of `src`, which is
removed; an existing `dst` is overwritten.  The source only calls it after
checking `src` exists; the `none` branch is unreachable there. -/
def move (fs : FS) (src dst : String) : FS :=
  match fs.lookup src with
  | some c => (fs.remove src).write dst c
  | none => fs

/-- Python `shutil.copy(src, dst)`: `dst` receives the contents of `src`, which is
kept in place; an existing `dst` is overwritten. -/
def copy (fs : FS) (src dst : String) : FS :=
  match fs.lookup src with
  | some c => fs.write dst c
  | none => fs

/-- Python `print >> file(p, 'a'), s`: append to the file at `p`, creating it if
missing. -/
def append (fs : FS) (p s : String) : FS :=
  fs.write p (((fs.lookup p).getD "") ++ s)

/-- Python `os.makedirs(d)`: record the directory (and, implicitly, its parents)
as existing.  Failure injection is handled at the call site. -/
def makedirs (fs : FS) (d : String) : FS :=
  { fs with dirs := d :: fs.dirs }

end FS

/-- Python `os.path.dirname(p)`: the part before the final slash, with trailing
slashes stripped unless the result is all slashes. -/
def lastSlashIdx (cs : List Char) : Option Nat :=
  (List.range cs.length).foldl
    (fun acc i => if cs.get? i == some '/' then some i else acc) none

def dirname (p : String) : String :=
  match lastSlashIdx p.data with
  | none => ""
  | some i =>
    let head := p.data.take (i + 1)
    if head.all (fun c => c == '/') then String.mk head
    else String.mk ((head.reverse.dropWhile (fun c => c == '/')).reverse)

/-- Python `os.path.join(d, f)` for the one call site `os.path.join(logdir,
'joblib.log')`. -/
def joinPath (d f : String) : String :=
  if f.data.head? == some '/' then f
  else if d == "" || d.data.getLast? == some '/' then d ++ f
  else d ++ "/" ++ f

/-- Injected OS-call failures.  Each flag makes the corresponding
file-system call raise; `move i` controls the rename of backup `i`. -/
structure Faults where
  makedirs : Bool
  move : Nat → Bool
  copy : Bool
  header : Bool
  append : Bool

/-- The fault-free file system. -/
def noFaults : Faults := ⟨false, fun _ => false, false, false, false⟩

/-! ## `PrintTime` (`logger.py` lines 230-296) -/

/-- Exceptions that can escape the module's own code. -/
inductive PyErr where
  | valueError -- `raise ValueError('Cannot specify both logfile and logdir')`
  | osError    -- an uncaught OS error escaping `os.makedirs`
deriving DecidableEq, Repr

/-- The attributes of a `PrintTime` instance. -/
structure PTState where
  last_time : Q
  start_time : Q
  logfile : Option String
deriving DecidableEq, Repr

/-- The backup name `logfile + '.%i' % i`. -/
def bak (lf : String) (i : Nat) : String := lf ++ "." ++ toString i

/-- One iteration of the rotation loop (lines 248-254): if `logfile.i`
exists, try to rename it to `logfile.(i+1)`, swallowing any error. -/
def rotateStep (faults : Faults) (lf : String) (fs : FS) (i : Nat) : FS :=
  if fs.pathExists (bak lf i) then
    if faults.move i then fs else fs.move (bak lf i) (bak lf (i + 1))
  else fs

/-- The rotation loop `for i in range(1, 9)` (line 248): indices 1 to 8 in
ascending order. -/
def rotateLogs (faults : Faults) (lf : String) (fs : FS) : FS :=
  (List.range' 1 8).foldl (rotateStep faults lf) fs

/-- The session header written on construction (lines 263-264): two `write`
calls on the freshly truncated file.  `ctimeStr` is the rendering of
`time.ctime(self.last_time)`. -/
def headerText (ctimeStr : String) : String :=
  "\nLogging joblib python script\n" ++ "\n---" ++ ctimeStr ++ "---\n"

/-- Lines 246-264: rotation, copy to `.1`, truncate-and-write header; every
step is try-wrapped in the source, so injected faults merely skip it. -/
def initFileOps (faults : Faults) (lf : String) (ctimeStr : String) (fs : FS) : FS :=
  let fs := if fs.pathExists lf then
      let fs := rotateLogs faults lf fs
      if faults.copy then fs else fs.copy lf (bak lf 1)
    else fs
  if faults.header then fs else fs.write lf (headerText ctimeStr)

/-- Lines 240-241: when a directory is given, the target file is
`os.path.join(logdir, 'joblib.log')`. -/
def resolvedLogfile (logfile logdir : Option String) : Option String :=
  match logdir with
  | some d => some (joinPath d "joblib.log")
  | none => logfile

/-- Source `PrintTime.__init__` (lines 234-271).  `t` is the value of
`time.time()`.  The result pairs the outcome (the constructed state, or the
exception that escaped) with the file system after the call; when an
exception escapes, the file system is returned unchanged. -/
def PrintTime_init (logfile logdir : Option String) (t : Q) (ctimeStr : String)
    (faults : Faults) (fs : FS) : Except PyErr PTState × FS :=
  -- line 235: the mutual-exclusion check, before anything else
  if logfile.isSome && logdir.isSome then (.error .valueError, fs)
  else
    -- lines 238-242
    let st : PTState :=
      { last_time := t, start_time := t,
        logfile := resolvedLogfile logfile logdir }
    match st.logfile with
    | none => (.ok st, fs)
    | some lf =>
      -- lines 244-245: this `os.makedirs` call is NOT wrapped in try/except
      let d := dirname lf
      if fs.pathExists d then (.ok st, initFileOps faults lf ctimeStr fs)
      else if d == "" || faults.makedirs then (.error .osError, fs)
      else (.ok st, initFileOps faults lf ctimeStr (fs.makedirs d))

/-- The line `__call__` builds (lines 277-284): `"%s: %s" % (msg,
format_time(time_lapse))` in checkpoint mode, `"%s: %.2fs, %.1f min"` in
cumulative mode (which does not pass through `format_time`). -/
def full_msg (msg : String) (total : Bool) (time_lapse : Q) (win : Bool) : String :=
  if !total then msg ++ ": " ++ format_time win time_lapse
  else msg ++ ": " ++ fmtF2 time_lapse ++ "s, " ++ fmtF1 (time_lapse.divN 60) ++ " min"

/-- Everything observable about one `__call__`. -/
structure CallResult where
  state : PTState
  fs : FS
  stderr : List String
deriving Repr

/-- Source `PrintTime.__call__` (lines 273-296).  `t1` is the `time.time()` used
for the elapsed computation, `t2` the one assigned to `last_time` at the
end.  The stderr print is unconditional; the log-file append is
try-wrapped. -/
def PrintTime_call (st : PTState) (msg : String) (total : Bool) (t1 t2 : Q)
    (win : Bool) (faults : Faults) (fs : FS) : CallResult :=
  let time_lapse := if total then t1 - st.start_time else t1 - st.last_time
  let m := full_msg msg total time_lapse win
  let fs := match st.logfile with
    | some p => if faults.append then fs else fs.append p (m ++ "\n")
    | none => fs
  ⟨{ st with last_time := t2 }, fs, [m]⟩

/-! ## `set_log_options` (`logger.py` lines 31-84) -/

/-- Python `filename.replace('~', home, 1)`: under the `startswith('~')` guard the
first occurrence of `'~'` is the leading character. -/
def replaceFirstTilde (f home : String) : String :=
  home ++ String.mk f.data.tail

/-- Source `set_log_options` (lines 31-84).  The module keeps no options state, so
the surrounding program state is an arbitrary `σ`; the body computes the
home-expanded filename and discards it (Python strings are immutable and
the result of `str.replace` is not bound), then returns `None`. -/
def set_log_options {σ : Type} (filename : Option String) (home : String)
    (stdoutLvl : Nat) (verbose : Nat) (rotating : Bool)
    (numlogs : Nat) (maxfilesize : Nat) (st : σ) : Option Unit × σ :=
  let _ := match filename with
    | some f =>
      if f.data.head? == some '~' then some (replaceFirstTilde f home) else none
    | none => none
  (none, st)

/-- A fault assignment under which every guarded OS call fails. -/
def allFaults : Faults := ⟨true, fun _ => true, true, true, true⟩

/-! ## Claims -/

/-- C6: every name in the closed verbosity set {SILENT, CRITICAL, ERROR,
WARNING, INFO, PROGRESS, DEBUG} maps to its documented integer (0, 10, 20,
30, 40, 45, 50), and the integer order is strictly monotone in intended
verbosity: a strictly more verbose name always carries a strictly larger
integer. -/
theorem C6_level_map_documented_and_monotone :
    (levelValue .silent = 0 ∧ levelValue .critical = 10 ∧ levelValue .error = 20 ∧
     levelValue .warning = 30 ∧ levelValue .info = 40 ∧ levelValue .progress = 45 ∧
     levelValue .debug = 50) ∧
    ∀ a b : Level, verbosityRank a < verbosityRank b ↔ levelValue a < levelValue b :=
  ⟨by decide, by decide⟩

/-- C5: constructing a `PrintTime` with both `logfile` and `logdir` set
fails with `ValueError`.  The check fires before anything else happens: the
result is the same for every clock value `t`, every fault assignment and
every file system, and the file system comes back untouched. -/
theorem C5_both_args_value_error (f d : String) (t : Q) (ct : String)
    (faults : Faults) (fs : FS) :
    PrintTime_init (some f) (some d) t ct faults fs = (.error .valueError, fs) := rfl

/-- C10: `set_log_options` returns `None` and has no observable effect: the
caller's state comes back unchanged whatever the arguments, and the result
does not depend on `filename` — the home expansion is computed and
discarded. -/
theorem C10_set_log_options_noop {σ : Type} (f₁ f₂ : Option String) (home : String)
    (so v : Nat) (r : Bool) (nl mfs : Nat) (st : σ) :
    set_log_options f₁ home so v r nl mfs st = (none, st) ∧
    set_log_options f₁ home so v r nl mfs st = set_log_options f₂ home so v r nl mfs st :=
  ⟨rfl, rfl⟩

/-- C7: every report call (checkpoint or cumulative) sets `last_time` to
the time taken at its end and leaves `start_time` and the log-file path
untouched; a successful construction writes `start_time` once, equal to
the initial `last_time`. -/
theorem C7_last_time_advances_start_time_frozen :
    (∀ st msg total t1 t2 win faults fs,
      (PrintTime_call st msg total t1 t2 win faults fs).state.last_time = t2 ∧
      (PrintTime_call st msg total t1 t2 win faults fs).state.start_time = st.start_time ∧
      (PrintTime_call st msg total t1 t2 win faults fs).state.logfile = st.logfile) ∧
    (∀ lf ld t ct faults fs st fs',
      PrintTime_init lf ld t ct faults fs = (.ok st, fs') →
      st.start_time = t ∧ st.last_time = t) := by
  constructor
  · intro st msg total t1 t2 win faults fs
    exact ⟨rfl, rfl, rfl⟩
  · intro lf ld t ct faults fs st fs' h
    unfold PrintTime_init at h
    split at h
    · exact absurd (congrArg Prod.fst h) (by simp)
    · dsimp only at h
      split at h
      · cases h; exact ⟨rfl, rfl⟩
      · split at h
        · cases h; exact ⟨rfl, rfl⟩
        · split at h
          · exact absurd (congrArg Prod.fst h) (by simp)
          · cases h; exact ⟨rfl, rfl⟩

/-- C7 witness: the theorem applied to one concrete report call and one
concrete successful construction. -/
theorem C7_witness :
    (PrintTime_call ⟨0, 0, none⟩ "Foo" false 1 2 false noFaults ⟨[], []⟩).state.last_time = 2 ∧
    ((⟨7, 7, none⟩ : PTState).start_time = 7 ∧ (⟨7, 7, none⟩ : PTState).last_time = 7) :=
  ⟨(C7_last_time_advances_start_time_frozen.1 ⟨0, 0, none⟩ "Foo" false 1 2 false noFaults
      ⟨[], []⟩).1,
   C7_last_time_advances_start_time_frozen.2 none none 7 "CT" noFaults ⟨[], []⟩
     ⟨7, 7, none⟩ ⟨[], []⟩ rfl⟩

/-- C3 counterexample: a checkpoint-mode report 0.3 seconds after the last
checkpoint writes `"Foo: 0.3s, 0.0min"` to stderr — the `format_time`
rendering — and in particular not a line equal to `"Foo:  0.3s"` (the
repository's own regression test expects the former shape). -/
theorem C3_counterexample :
    (PrintTime_call ⟨0, 0, none⟩ "Foo" false ⟨3, 10⟩ ⟨3, 10⟩ false noFaults ⟨[], []⟩).stderr =
      ["Foo: 0.3s, 0.0min"] ∧
    ¬ (PrintTime_call ⟨0, 0, none⟩ "Foo" false ⟨3, 10⟩ ⟨3, 10⟩ false noFaults ⟨[], []⟩).stderr =
      ["Foo:  0.3s"] := by decide

/-- C3 amended: a checkpoint-mode report writes `"<msg>: "` followed by the
`format_time` rendering of the elapsed time, so 0.3s after creation the
line is `"Foo: 0.3s, 0.0min"`; a cumulative-mode report 1.0 second after
creation writes `"Bar: 1.00s, 0.0 min"` exactly as the spec scenario
states. -/
theorem C3_amended_report_lines :
    (∀ st msg t1 t2 win faults fs,
      (PrintTime_call st msg false t1 t2 win faults fs).stderr =
        [msg ++ ": " ++ format_time win (t1 - st.last_time)]) ∧
    (PrintTime_call ⟨0, 0, none⟩ "Foo" false ⟨3, 10⟩ ⟨3, 10⟩ false noFaults ⟨[], []⟩).stderr =
      ["Foo: 0.3s, 0.0min"] ∧
    (PrintTime_call ⟨0, 0, none⟩ "Bar" true 1 1 false noFaults ⟨[], []⟩).stderr =
      ["Bar: 1.00s, 0.0 min"] :=
  ⟨fun st msg t1 t2 win faults fs => rfl, by decide, by decide⟩

/-- C8 counterexample: on Windows, a cumulative-mode report does not apply
the 0.1 reduction — 1.0 second elapsed prints as `"1.00s"`, not `"0.90s"`,
because the cumulative branch formats `time_lapse` directly without going
through `format_time`/`_squeeze_time`. -/
theorem C8_counterexample :
    (PrintTime_call ⟨0, 0, none⟩ "Bar" true ⟨1, 1⟩ ⟨1, 1⟩ true noFaults ⟨[], []⟩).stderr =
      ["Bar: 1.00s, 0.0 min"] ∧
    ¬ (PrintTime_call ⟨0, 0, none⟩ "Bar" true ⟨1, 1⟩ ⟨1, 1⟩ true noFaults ⟨[], []⟩).stderr =
      ["Bar: 0.90s, 0.0 min"] := by decide

/-- C8 amended: on Windows `_squeeze_time` subtracts 0.1 and floors the
result at zero (so the adjusted value is exactly `max 0 (t - 0.1)`, never
negative); on other platforms it is the identity.  The adjustment reaches
checkpoint-mode reports (whose stderr line goes through `format_time`) but
not cumulative-mode reports, whose output is identical on both platform
families. -/
theorem C8_amended_squeeze_scope (t : Q) (ht : t.den ≠ 0) :
    (squeeze_time true t).toRat = max 0 (t.toRat - 1/10) ∧
    squeeze_time false t = t ∧
    (∀ st msg t2 win faults fs,
      (PrintTime_call st msg false t t2 win faults fs).stderr =
        [msg ++ ": " ++ format_time win (t - st.last_time)]) ∧
    (∀ st msg t2 faults fs,
      (PrintTime_call st msg true t t2 true faults fs).stderr =
        (PrintTime_call st msg true t t2 false faults fs).stderr) := by
  refine ⟨?_, rfl, fun st msg t2 win faults fs => rfl, fun st msg t2 faults fs => rfl⟩
  have hd10 : ((⟨1, 10⟩ : Q)).den ≠ 0 := by decide
  have hdsub : (t - ⟨1, 10⟩).den ≠ 0 := by
    show t.den * 10 ≠ 0
    exact Nat.mul_ne_zero ht (by decide)
  have hsub : (t - ⟨1, 10⟩).toRat = t.toRat - 1/10 := by
    rw [Q.toRat_sub t ⟨1, 10⟩ ht hd10]
    norm_num [Q.toRat]
  have hzero : ((0 : Q)).toRat = 0 := by
    show Q.toRat ⟨0, 1⟩ = 0
    norm_num [Q.toRat]
  have hiff : Q.blt 0 (t - ⟨1, 10⟩) = true ↔ (0 : ℚ) < t.toRat - 1/10 := by
    rw [Q.blt_iff 0 (t - ⟨1, 10⟩) (by decide) hdsub, hsub]
    show Q.toRat ⟨0, 1⟩ < _ ↔ _
    rw [show Q.toRat ⟨0, 1⟩ = 0 by norm_num [Q.toRat]]
  by_cases hc : (0 : ℚ) < t.toRat - 1/10
  · have hb : Q.blt 0 (t - ⟨1, 10⟩) = true := hiff.mpr hc
    unfold squeeze_time
    simp only [if_true, hb]
    rw [hsub]
    exact (max_eq_right hc.le).symm
  · have hb : Q.blt 0 (t - ⟨1, 10⟩) = false :=
      Bool.eq_false_iff.mpr (fun hbt => hc (hiff.mp hbt))
    unfold squeeze_time
    simp only [if_true, hb, Bool.false_eq_true, if_false]
    rw [hzero]
    exact (max_eq_left (not_lt.mp hc)).symm

/-- C8 witness: the amended theorem applied at t = 0.3s. -/
theorem C8_witness :
    (squeeze_time true ⟨3, 10⟩).toRat = max 0 ((⟨3, 10⟩ : Q).toRat - 1/10) ∧
    squeeze_time false ⟨3, 10⟩ = ⟨3, 10⟩ :=
  ⟨(C8_amended_squeeze_scope ⟨3, 10⟩ (by decide)).1,
   (C8_amended_squeeze_scope ⟨3, 10⟩ (by decide)).2.1⟩

/-- C9 counterexample: at exactly t = 60 (not "under 60 seconds") the short
formatter still renders seconds — `"  60.0s"` — and not the minutes
rendering, because the source tests `t > 60`, not `t >= 60`. -/
theorem C9_counterexample :
    short_format_time false ⟨60, 1⟩ = "  60.0s" ∧
    ¬ short_format_time false ⟨60, 1⟩ = padLeft (fmtF1 ((⟨60, 1⟩ : Q).divN 60)) 4 ++ "min" := by
  decide

/-- C9 amended: after the platform adjustment, the short elapsed-time
formatter renders seconds with one decimal (`" %5.1fs"`) for every t ≤ 60
and minutes with one decimal (`"%4.1fmin"`) exactly when 60 < t; the
boundary value 60 itself falls in the seconds branch. -/
theorem C9_amended_boundary (t : Q) (ht : t.den ≠ 0) :
    (t.toRat ≤ 60 → short_format_time false t = " " ++ padLeft (fmtF1 t) 5 ++ "s") ∧
    (60 < t.toRat → short_format_time false t = padLeft (fmtF1 (t.divN 60)) 4 ++ "min") := by
  have hiff : Q.blt 60 t = true ↔ (60 : ℚ) < t.toRat := by
    rw [Q.blt_iff 60 t (by decide) ht]
    show Q.toRat ⟨60, 1⟩ < _ ↔ _
    rw [show Q.toRat ⟨60, 1⟩ = 60 by norm_num [Q.toRat]]
  constructor
  · intro hle
    have hb : Q.blt 60 t = false :=
      Bool.eq_false_iff.mpr (fun hbt => absurd (hiff.mp hbt) (not_lt.mpr hle))
    unfold short_format_time squeeze_time
    simp [hb]
  · intro hlt
    have hb : Q.blt 60 t = true := hiff.mpr hlt
    unfold short_format_time squeeze_time
    simp [hb]

/-- C9 witness: the amended theorem applied below the boundary (0.3s,
seconds branch) and above it (90s, minutes branch). -/
theorem C9_witness :
    short_format_time false ⟨3, 10⟩ = " " ++ padLeft (fmtF1 ⟨3, 10⟩) 5 ++ "s" ∧
    short_format_time false ⟨90, 1⟩ = padLeft (fmtF1 ((⟨90, 1⟩ : Q).divN 60)) 4 ++ "min" :=
  ⟨(C9_amended_boundary ⟨3, 10⟩ (by decide)).1 (by norm_num [Q.toRat]),
   (C9_amended_boundary ⟨90, 1⟩ (by decide)).2 (by norm_num [Q.toRat])⟩

/-- C1: evaluation of construction at the failing input.  Starting from the
live file `d/log = "A"` with backups `d/log.1 = "B"` and `d/log.2 = "C"`,
the ascending rotation loop (`for i in range(1, 9)`) drags `"B"` from `.1`
all the way to `.9`, overwriting and losing `"C"` at `.2` on the first
step, instead of advancing each backup by exactly one position; the copy of
the live file to `.1` and the in-place header rewrite then happen as
specified. -/
theorem C1_rotation_cascades_at_failing_input :
    ((PrintTime_init (some "d/log") none 0 "CT" noFaults
        ⟨[("d/log", "A"), ("d/log.1", "B"), ("d/log.2", "C")], ["d"]⟩).2.lookup "d/log.9"
      = some "B") ∧
    ((PrintTime_init (some "d/log") none 0 "CT" noFaults
        ⟨[("d/log", "A"), ("d/log.1", "B"), ("d/log.2", "C")], ["d"]⟩).2.lookup "d/log.2"
      = none) ∧
    ((PrintTime_init (some "d/log") none 0 "CT" noFaults
        ⟨[("d/log", "A"), ("d/log.1", "B"), ("d/log.2", "C")], ["d"]⟩).2.lookup "d/log.1"
      = some "A") ∧
    ((PrintTime_init (some "d/log") none 0 "CT" noFaults
        ⟨[("d/log", "A"), ("d/log.1", "B"), ("d/log.2", "C")], ["d"]⟩).2.lookup "d/log"
      = some (headerText "CT")) ∧
    (((PrintTime_init (some "d/log") none 0 "CT" noFaults
        ⟨[("d/log", "A"), ("d/log.1", "B"), ("d/log.2", "C")], ["d"]⟩).2.files.map
          (fun kv => kv.2)).contains "C" = false) := by decide

/-- C2: evaluation of construction at the failing input.  Starting from the
live file `d/log = "A"` and a single backup `d/log.8 = "H"` (so no
pre-existing backup has suffix above N = 8), construction renames `.8` to
`.9`: the backup with suffix N+1 = 9, which the claim says never appears,
exists afterwards. -/
theorem C2_backup_nine_appears :
    ((⟨[("d/log", "A"), ("d/log.8", "H")], ["d"]⟩ : FS).pathExists "d/log.9" = false) ∧
    ((PrintTime_init (some "d/log") none 0 "CT" noFaults
        ⟨[("d/log", "A"), ("d/log.8", "H")], ["d"]⟩).2.pathExists "d/log.9" = true) ∧
    ((PrintTime_init (some "d/log") none 0 "CT" noFaults
        ⟨[("d/log", "A"), ("d/log.8", "H")], ["d"]⟩).2.lookup "d/log.9" = some "H") := by
  decide

/-- Discriminator for successful construction outcomes. -/
def isOkB : Except PyErr PTState → Bool
  | .ok _ => true
  | .error _ => false

/-- C4 counterexample: with `logfile='log'` (a bare filename — no
conflicting arguments, no injected fault) construction raises an uncaught
OS error: `os.path.dirname('log')` is `''`, `os.path.exists('')` is false,
and the resulting `os.makedirs('')` call — which sits outside every
try/except — raises.  So a raising path other than the mutual-exclusion
check exists. -/
theorem C4_counterexample :
    (PrintTime_init (some "log") none 0 "CT" noFaults ⟨[], []⟩).1 = .error .osError ∧
    ¬ (PyErr.osError = PyErr.valueError) :=
  ⟨rfl, by decide⟩

/-- C4 amended: construction can raise in exactly two ways — the
mutual-exclusion `ValueError` (only when both arguments are supplied) and
an uncaught OS error from the unguarded `os.makedirs` (only when the
resolved target's parent directory does not exist).  Once the parent
directory exists, construction succeeds under every fault assignment for
rotation, copy and header write; and a report call never raises and prints
its stderr line whatever faults are injected into the log-file append. -/
theorem C4_amended_error_containment :
    (∀ lf ld t ct faults fs,
      (PrintTime_init lf ld t ct faults fs).1 = Except.error .valueError →
      lf.isSome = true ∧ ld.isSome = true) ∧
    (∀ lf ld t ct faults fs,
      (PrintTime_init lf ld t ct faults fs).1 = Except.error .osError →
      ∃ p, resolvedLogfile lf ld = some p ∧ fs.pathExists (dirname p) = false) ∧
    (∀ lf ld t ct faults fs p, resolvedLogfile lf ld = some p →
      ¬(lf.isSome = true ∧ ld.isSome = true) →
      fs.pathExists (dirname p) = true →
      isOkB (PrintTime_init lf ld t ct faults fs).1 = true) ∧
    (∀ st msg total t1 t2 win faults fs,
      (PrintTime_call st msg total t1 t2 win faults fs).stderr =
        [full_msg msg total (if total then t1 - st.start_time else t1 - st.last_time) win]) := by
  refine ⟨?_, ?_, ?_, fun st msg total t1 t2 win faults fs => rfl⟩
  · intro lf ld t ct faults fs h
    unfold PrintTime_init at h
    split at h
    · next hc => simpa using hc
    · dsimp only at h
      split at h
      · simp at h
      · split at h
        · simp at h
        · split at h
          · simp at h
          · simp at h
  · intro lf ld t ct faults fs h
    unfold PrintTime_init at h
    split at h
    · simp at h
    · dsimp only at h
      split at h
      · simp at h
      · next lf' heq =>
        split at h
        · simp at h
        · split at h
          · next hne _ => exact ⟨lf', heq, Bool.eq_false_iff.mpr hne⟩
          · simp at h
  · intro lf ld t ct faults fs p hres hboth hdir
    unfold PrintTime_init
    split
    · next hc => exact absurd (by simpa using hc) hboth
    · dsimp only
      rw [hres]
      dsimp only
      rw [hdir]
      simp [isOkB]

/-- C4 witness: with the parent directory present, construction succeeds
even when every guarded OS call (rotation renames, copy, header write)
fails. -/
theorem C4_witness :
    isOkB (PrintTime_init (some "d/log") none 0 "CT" allFaults ⟨[], ["d"]⟩).1 = true :=
  C4_amended_error_containment.2.2.1 (some "d/log") none 0 "CT" allFaults ⟨[], ["d"]⟩
    "d/log" rfl (by decide) (by decide)

end JoblibLogger
